import Mathlib

/-!
Shallow embedding of the backend-service validation scripts: the health
aggregator of `validate-service.sh` (the hosting-validation JS section:
`validateBackendService`, `validateMultipleEndpoints`,
`comprehensiveHostValidation`, `hostingValidation`), the basic check of
`validate-service.js` (`validateService`), and the shell aggregator
`run_comprehensive_validation` of `comprehensive-validation.sh`.

Network I/O is modelled by explicit outcome data: one HTTP attempt either
yields a response with a status code or fails in transport with an optional
error code string (mirroring axios: `error.response` is set exactly when a
response was received, `error.code` carries the transport error code).
The per-endpoint loop draws its attempts from an oracle `Nat → HttpAttempt × Nat`
(outcome and elapsed milliseconds of the n-th call) and additionally returns
the trace of URLs it requested, so that "probed exactly once, in order" and
"the loop never runs" are statable.
-/

namespace BE

/-- Result of one HTTP attempt: either some response was received (any status
code), or the attempt failed in transport with an optional error code string
(`ECONNREFUSED`, `ECONNRESET`, ... — `none` models an error with no `code`). -/
inductive HttpAttempt where
  | response (status : Nat)
  | transportError (code : Option String)
deriving DecidableEq, Repr

/-- The five transport-error kinds the scripts distinguish. -/
inductive ErrorKind where
  | connectionRefused
  | connectionReset
  | hostNotFound
  | timedOut
  | otherTransportError
deriving DecidableEq, Repr

/-- The `error.code` dispatch chain of `validateBackendService` (lines 72-84):
`ECONNREFUSED`, `ECONNRESET`, `ENOTFOUND`, `ETIMEDOUT` are recognised, any
other transport failure falls into the final `else`. -/
def classifyTransport (code : Option String) : ErrorKind :=
  match code with
  | some "ECONNREFUSED" => .connectionRefused
  | some "ECONNRESET" => .connectionReset
  | some "ENOTFOUND" => .hostNotFound
  | some "ETIMEDOUT" => .timedOut
  | _ => .otherTransportError

/-- Error classification recorded by `validateBackendService` on failure:
the four transport codes, a received-but-rejected response
(`Server error: ...`, when `error.response` is set), or the generic message. -/
inductive BasicErrorMsg where
  | connectionRefused
  | connectionReset
  | hostNotFound
  | timedOut
  | serverError (status : Nat)
  | other
deriving DecidableEq, Repr

/-- Whether a recorded basic-validation error names one of the five transport
kinds (a `serverError` message accompanies a received response instead). -/
def BasicErrorMsg.transportKind : BasicErrorMsg → Option ErrorKind
  | .connectionRefused => some .connectionRefused
  | .connectionReset => some .connectionReset
  | .hostNotFound => some .hostNotFound
  | .timedOut => some .timedOut
  | .serverError _ => none
  | .other => some .otherTransportError

/-- Return value of `validateBackendService`: `success`, the `status` field
(`response.status` on success, `error.response.status` or `null` on failure),
the error classification, and the elapsed time. -/
structure BasicResult where
  success : Bool
  status : Option Nat
  error : Option BasicErrorMsg
  responseTime : Nat
deriving DecidableEq, Repr

/-- `validateBackendService` (lines 41-97): requests the base URL with
`validateStatus: (status) => status < 500`, so any response below 500 resolves
and counts as basic connectivity; a response of 500 or above rejects with
`error.response` set, and a transport failure rejects with `error.code`. -/
def validateBackendService (a : HttpAttempt) (rt : Nat) : BasicResult :=
  match a with
  | .response s =>
      if s < 500 then
        { success := true, status := some s, error := none, responseTime := rt }
      else
        { success := false, status := some s, error := some (.serverError s),
          responseTime := rt }
  | .transportError c =>
      { success := false, status := none,
        error := some (match classifyTransport c with
          | .connectionRefused => .connectionRefused
          | .connectionReset => .connectionReset
          | .hostNotFound => .hostNotFound
          | .timedOut => .timedOut
          | .otherTransportError => .other),
        responseTime := rt }

/-- The spec's `ProbeOutcome.errorKind` view of a basic-validation result:
the transport kind named by the recorded error message, if any. -/
def BasicResult.errorKind (r : BasicResult) : Option ErrorKind :=
  match r.error with
  | some m => m.transportKind
  | none => none

/-- `validateService` of `validate-service.js` (lines 7-42): resolves `true`
iff a response arrived with `200 <= statusCode < 300`; any error or timeout
resolves `false`. -/
def validateService (a : HttpAttempt) : Bool :=
  match a with
  | .response s => decide (200 ≤ s) && decide (s < 300)
  | .transportError _ => false

/-- Static endpoint descriptor `{ path, name }`. -/
structure EndpointSpec where
  path : String
  name : String
deriving DecidableEq, Repr

/-- The hard-coded endpoint list of `validateMultipleEndpoints` (lines 105-111). -/
def defaultEndpoints : List EndpointSpec :=
  [⟨"/", "Home"⟩, ⟨"/health", "Health Check"⟩, ⟨"/api/status", "API Status"⟩,
   ⟨"/api/health", "API Health"⟩, ⟨"/status", "Status"⟩]

/-- The `status` field of a per-endpoint result entry: an HTTP code number
(from `response.status` or `error.response.status`), an error code string
(from `error.code`), or the literal `'ERROR'` fallback (lines 142-147). -/
inductive StatusField where
  | httpCode (n : Nat)
  | errCode (s : String)
  | errorLabel
deriving DecidableEq, Repr

/-- One entry of `results.endpoints` (lines 131-138 and 151-158). -/
structure EndpointEntry where
  path : String
  name : String
  status : StatusField
  responseTime : Nat
  success : Bool
deriving DecidableEq, Repr

/-- One iteration of the per-endpoint loop (lines 121-160). The request uses
axios's default `validateStatus` (only `200 <= status < 300` resolves), so the
`try` branch records `success: response.status >= 200 && response.status < 300`
and the `catch` branch records `success: false` with the `status` taken from
`error.response.status`, `error.code`, or `'ERROR'`. -/
def probeEndpoint (spec : EndpointSpec) (a : HttpAttempt) (rt : Nat) : EndpointEntry :=
  match a with
  | .response s =>
      if 200 ≤ s ∧ s < 300 then
        { path := spec.path, name := spec.name, status := .httpCode s,
          responseTime := rt, success := decide (200 ≤ s) && decide (s < 300) }
      else
        { path := spec.path, name := spec.name, status := .httpCode s,
          responseTime := rt, success := false }
  | .transportError c =>
      { path := spec.path, name := spec.name,
        status := (match c with
          | some code => .errCode code
          | none => .errorLabel),
        responseTime := rt, success := false }

/-- The per-endpoint loop of `validateMultipleEndpoints`: probes each spec once
in supplied order, taking the outcome of the n-th call from the oracle.
Returns the recorded entries together with the trace of requested URLs
(`baseUrl + path`, one per call, in call order). -/
def probeLoop (baseUrl : String) (specs : List EndpointSpec)
    (attempts : Nat → HttpAttempt × Nat) (k : Nat) :
    List EndpointEntry × List String :=
  match specs with
  | [] => ([], [])
  | spec :: rest =>
      let a := attempts k
      let entry := probeEndpoint spec a.1 a.2
      let tail := probeLoop baseUrl rest attempts (k + 1)
      (entry :: tail.1, (baseUrl ++ spec.path) :: tail.2)

/-- `Math.round((successful / total) * 100)` (line 168), in exact arithmetic:
round half up of `successful * 100 / total`, computed as
`⌊(200 * successful + total) / (2 * total)⌋` in natural division. -/
def jsRound100 (successful total : Nat) : Nat :=
  (200 * successful + total) / (2 * total)

/-- The `results.summary` object (lines 164-169). -/
structure Summary where
  total : Nat
  successful : Nat
  failed : Nat
  successRate : Nat
deriving DecidableEq, Repr

/-- The object returned by `validateMultipleEndpoints` (lines 113-175),
without the timestamp. -/
structure MultiReport where
  baseUrl : String
  endpoints : List EndpointEntry
  summary : Summary
deriving DecidableEq, Repr

/-- `validateMultipleEndpoints` (lines 104-175), generalised over the endpoint
list (the source instantiates it with `defaultEndpoints`): runs the loop, then
computes `total = endpoints.length`, `successful` by filtering on `success`,
`failed = total - successful`, and the rounded `successRate`. Also returns the
URL trace of the loop. -/
def validateMultipleEndpoints (baseUrl : String) (specs : List EndpointSpec)
    (attempts : Nat → HttpAttempt × Nat) : MultiReport × List String :=
  let r := probeLoop baseUrl specs attempts 0
  let successful := (r.1.filter (·.success)).length
  ({ baseUrl := baseUrl
     endpoints := r.1
     summary :=
       { total := specs.length
         successful := successful
         failed := specs.length - successful
         successRate := jsRound100 successful specs.length } }, r.2)

/-- The four overall states: three classification bands plus the pre-check
failure state. -/
inductive OverallStatus where
  | HEALTHY
  | DEGRADED
  | UNHEALTHY
  | FAILED
deriving DecidableEq, Repr

/-- The two-threshold classification of `comprehensiveHostValidation`
(lines 204-205): `successRate === 100 ? HEALTHY : successRate >= 50 ?
DEGRADED : UNHEALTHY`. -/
def classifyRate (successRate : Nat) : OverallStatus :=
  if successRate = 100 then .HEALTHY
  else if 50 ≤ successRate then .DEGRADED
  else .UNHEALTHY

/-- The object returned by `comprehensiveHostValidation` (without timestamp):
basic connectivity result, optional detailed report, and overall status. -/
structure ComprehensiveReport where
  basicConnectivity : BasicResult
  detailedValidation : Option MultiReport
  overallStatus : OverallStatus
deriving DecidableEq, Repr

/-- `comprehensiveHostValidation` (lines 182-217): run the basic connectivity
test on the base URL; if it fails, return `detailedValidation: null` and
`overallStatus: 'FAILED'` without running the endpoint loop; otherwise run
`validateMultipleEndpoints` and classify its success rate. The second
component is the URL trace of the per-endpoint loop (empty when skipped). -/
def comprehensiveHostValidation (baseUrl : String) (base : HttpAttempt × Nat)
    (specs : List EndpointSpec) (attempts : Nat → HttpAttempt × Nat) :
    ComprehensiveReport × List String :=
  let basicResult := validateBackendService base.1 base.2
  if basicResult.success then
    let detailed := validateMultipleEndpoints baseUrl specs attempts
    ({ basicConnectivity := basicResult
       detailedValidation := some detailed.1
       overallStatus := classifyRate detailed.1.summary.successRate }, detailed.2)
  else
    ({ basicConnectivity := basicResult
       detailedValidation := none
       overallStatus := .FAILED }, [])

/-- `hostingValidation` (lines 222-232): run the comprehensive validation and
derive the exit code `overallStatus === 'HEALTHY' ? 0 : 1`. Returns the
report, the exit code, and the per-endpoint URL trace. -/
def hostingValidation (baseUrl : String) (base : HttpAttempt × Nat)
    (specs : List EndpointSpec) (attempts : Nat → HttpAttempt × Nat) :
    ComprehensiveReport × Nat × List String :=
  let r := comprehensiveHostValidation baseUrl base specs attempts
  (r.1, if r.1.overallStatus = .HEALTHY then 0 else 1, r.2)

/-! ## The shell aggregator (`comprehensive-validation.sh`) -/

/-- `validate_single_endpoint` (lines 20-42) return value: curl writes the
numeric `%{http_code}` (`000` on transport failure); the function returns 0
(success) iff `200 <= http_code < 300`, and 1 for every other band. -/
def shellEndpointSuccess (code : Nat) : Bool :=
  decide (200 ≤ code) && decide (code < 300)

/-- The six endpoint pairs of `run_comprehensive_validation` (lines 59-66). -/
def shellEndpoints : List (String × String) :=
  [("/", "Home"), ("/health", "Health Check"), ("/api/status", "API Status"),
   ("/api/health", "API Health"), ("/status", "Status"), ("/api", "API Root")]

/-- `success_rate=$((success_count * 100 / total_count))` (line 88): bash
integer arithmetic truncates, which on naturals is floor division. -/
def shellSuccessRate (successCount totalCount : Nat) : Nat :=
  successCount * 100 / totalCount

/-- The summary block printed by `run_comprehensive_validation` (lines 84-100). -/
structure ShellReport where
  totalCount : Nat
  successCount : Nat
  failedCount : Nat
  successRate : Nat
  overallStatus : OverallStatus
deriving DecidableEq, Repr

/-- `run_comprehensive_validation` (lines 44-110), with `basicOk` the result of
the `curl -f` basic connectivity test and `codes` the curl `http_code` of each
endpoint probe in list order (the source instantiates the endpoint list with
`shellEndpoints`, so `codes` has one entry per endpoint and
`total_count = ${#endpoints[@]} = codes.length`). Returns the report (none
when the basic test fails and the loop is skipped) and the function's return
code, which line 170 passes to `exit`. -/
def run_comprehensive_validation (basicOk : Bool) (codes : List Nat) :
    Option ShellReport × Nat :=
  if basicOk then
    let successCount := (codes.filter shellEndpointSuccess).length
    let totalCount := codes.length
    let successRate := shellSuccessRate successCount totalCount
    let overallStatus : OverallStatus :=
      if successRate = 100 then .HEALTHY
      else if 50 ≤ successRate then .DEGRADED
      else .UNHEALTHY
    (some { totalCount := totalCount
            successCount := successCount
            failedCount := totalCount - successCount
            successRate := successRate
            overallStatus := overallStatus },
     if successRate = 100 then 0 else 1)
  else
    (none, 1)

end BE
namespace BE

theorem probeEndpoint_path (spec : EndpointSpec) (a : HttpAttempt) (rt : Nat) :
    (probeEndpoint spec a rt).path = spec.path := by
  cases a with
  | response s => by_cases h : 200 ≤ s ∧ s < 300 <;> simp [probeEndpoint, h]
  | transportError c => rfl

theorem probeEndpoint_name (spec : EndpointSpec) (a : HttpAttempt) (rt : Nat) :
    (probeEndpoint spec a rt).name = spec.name := by
  cases a with
  | response s => by_cases h : 200 ≤ s ∧ s < 300 <;> simp [probeEndpoint, h]
  | transportError c => rfl

theorem probeLoop_fst_length (baseUrl : String) (specs : List EndpointSpec)
    (attempts : Nat → HttpAttempt × Nat) (k : Nat) :
    (probeLoop baseUrl specs attempts k).1.length = specs.length := by
  induction specs generalizing k with
  | nil => rfl
  | cons spec rest ih => simp [probeLoop, ih]

theorem probeLoop_trace (baseUrl : String) (specs : List EndpointSpec)
    (attempts : Nat → HttpAttempt × Nat) (k : Nat) :
    (probeLoop baseUrl specs attempts k).2 = specs.map (fun sp => baseUrl ++ sp.path) := by
  induction specs generalizing k with
  | nil => rfl
  | cons spec rest ih => simp [probeLoop, ih]

theorem probeLoop_path_name (baseUrl : String) (specs : List EndpointSpec)
    (attempts : Nat → HttpAttempt × Nat) (k : Nat) :
    (probeLoop baseUrl specs attempts k).1.map (fun e => (e.path, e.name)) =
      specs.map (fun sp => (sp.path, sp.name)) := by
  induction specs generalizing k with
  | nil => rfl
  | cons spec rest ih =>
      simp [probeLoop, ih, probeEndpoint_path, probeEndpoint_name]

theorem jsRound100_eq_round (s t : Nat) (ht : 0 < t) :
    (jsRound100 s t : ℤ) = round ((s * 100 : ℚ) / t) := by
  rw [round_eq, jsRound100]
  have ht' : (t : ℚ) ≠ 0 := by positivity
  have harg : (s * 100 : ℚ) / t + 1/2 = ((200 * s + t : ℕ) : ℚ) / ((2 * t : ℕ) : ℚ) := by
    push_cast
    field_simp
    ring
  rw [harg, Rat.floor_natCast_div_natCast]
  push_cast
  rfl

theorem shellSuccessRate_eq_floor (s t : Nat) :
    (shellSuccessRate s t : ℤ) = ⌊((s * 100 : ℕ) : ℚ) / t⌋ := by
  rw [shellSuccessRate, Rat.floor_natCast_div_natCast]
  push_cast
  rfl

theorem jsRound100_le_100 (s t : Nat) (hs : s ≤ t) : jsRound100 s t ≤ 100 := by
  rw [jsRound100]
  rcases Nat.eq_zero_or_pos t with ht | ht
  · subst ht
    omega
  · rw [Nat.div_le_iff_le_mul_add_pred (by omega)]
    omega

theorem shellSuccessRate_le_100 (s t : Nat) (hs : s ≤ t) : shellSuccessRate s t ≤ 100 := by
  rw [shellSuccessRate]
  rcases Nat.eq_zero_or_pos t with ht | ht
  · subst ht
    omega
  · rw [Nat.div_le_iff_le_mul_add_pred (by omega)]
    omega

theorem classifyRate_eq_HEALTHY (r : Nat) : classifyRate r = .HEALTHY ↔ r = 100 := by
  unfold classifyRate
  split_ifs <;> simp_all

theorem classifyRate_eq_DEGRADED (r : Nat) (hr : r ≤ 100) :
    classifyRate r = .DEGRADED ↔ 50 ≤ r ∧ r < 100 := by
  unfold classifyRate
  split_ifs <;> simp_all
  omega

theorem classifyRate_eq_UNHEALTHY (r : Nat) : classifyRate r = .UNHEALTHY ↔ r < 50 := by
  unfold classifyRate
  split_ifs <;> simp_all

theorem classifyRate_ne_FAILED (r : Nat) : ¬ classifyRate r = .FAILED := by
  unfold classifyRate
  split_ifs <;> simp_all

theorem multi_summary (baseUrl : String) (specs : List EndpointSpec)
    (attempts : Nat → HttpAttempt × Nat) :
    (validateMultipleEndpoints baseUrl specs attempts).1.summary.total = specs.length ∧
    (validateMultipleEndpoints baseUrl specs attempts).1.summary.successful ≤ specs.length ∧
    (validateMultipleEndpoints baseUrl specs attempts).1.summary.failed =
      specs.length - (validateMultipleEndpoints baseUrl specs attempts).1.summary.successful ∧
    (validateMultipleEndpoints baseUrl specs attempts).1.summary.successRate =
      jsRound100 (validateMultipleEndpoints baseUrl specs attempts).1.summary.successful specs.length := by
  refine ⟨rfl, ?_, rfl, rfl⟩
  calc ((probeLoop baseUrl specs attempts 0).1.filter (·.success)).length
      ≤ (probeLoop baseUrl specs attempts 0).1.length := List.length_filter_le _ _
    _ = specs.length := probeLoop_fst_length baseUrl specs attempts 0

theorem multi_successRate_le_100 (baseUrl : String) (specs : List EndpointSpec)
    (attempts : Nat → HttpAttempt × Nat) :
    (validateMultipleEndpoints baseUrl specs attempts).1.summary.successRate ≤ 100 := by
  obtain ⟨-, hle, -, hrate⟩ := multi_summary baseUrl specs attempts
  rw [hrate]
  exact jsRound100_le_100 _ _ hle

end BE
namespace BE

/-- C3: an `EndpointResult` is successful iff a status code was received and
lies in [200, 300); every other response class and every transport error is a
failure, in both the per-endpoint loop and `validateService`. -/
theorem C3_success_iff_2xx (spec : EndpointSpec) (a : HttpAttempt) (rt : Nat) :
    ((probeEndpoint spec a rt).success = true ↔
      ∃ s, a = .response s ∧ 200 ≤ s ∧ s < 300) ∧
    (validateService a = true ↔ ∃ s, a = .response s ∧ 200 ≤ s ∧ s < 300) := by
  constructor
  · cases a with
    | response s =>
        by_cases h : 200 ≤ s ∧ s < 300 <;>
          simp [probeEndpoint, h]
    | transportError c => simp [probeEndpoint]
  · cases a with
    | response s => simp [validateService]
    | transportError c => simp [validateService]

/-- C5: when the basic-connectivity pre-check fails, the per-endpoint loop is
skipped (empty request trace), the report is well-formed with a null detailed
section and overallStatus FAILED, and the exit code is 1. -/
theorem C5_precheck_failure_short_circuit (baseUrl : String) (base : HttpAttempt × Nat)
    (specs : List EndpointSpec) (attempts : Nat → HttpAttempt × Nat)
    (hb : (validateBackendService base.1 base.2).success = false) :
    (hostingValidation baseUrl base specs attempts).1.detailedValidation = none ∧
    (hostingValidation baseUrl base specs attempts).1.overallStatus = .FAILED ∧
    (hostingValidation baseUrl base specs attempts).2.1 = 1 ∧
    (hostingValidation baseUrl base specs attempts).2.2 = [] := by
  simp [hostingValidation, comprehensiveHostValidation, hb]

theorem C5_witness :
    (validateBackendService (HttpAttempt.transportError (some "ECONNREFUSED")) 5).success = false ∧
    ((hostingValidation "http://localhost:5000" (HttpAttempt.transportError (some "ECONNREFUSED"), 5)
        defaultEndpoints (fun _ => (HttpAttempt.response 200, 1))).1.detailedValidation = none ∧
     (hostingValidation "http://localhost:5000" (HttpAttempt.transportError (some "ECONNREFUSED"), 5)
        defaultEndpoints (fun _ => (HttpAttempt.response 200, 1))).1.overallStatus = .FAILED ∧
     (hostingValidation "http://localhost:5000" (HttpAttempt.transportError (some "ECONNREFUSED"), 5)
        defaultEndpoints (fun _ => (HttpAttempt.response 200, 1))).2.1 = 1 ∧
     (hostingValidation "http://localhost:5000" (HttpAttempt.transportError (some "ECONNREFUSED"), 5)
        defaultEndpoints (fun _ => (HttpAttempt.response 200, 1))).2.2 = []) :=
  ⟨rfl, C5_precheck_failure_short_circuit "http://localhost:5000"
    (HttpAttempt.transportError (some "ECONNREFUSED"), 5) defaultEndpoints
    (fun _ => (HttpAttempt.response 200, 1)) rfl⟩

/-- C6: the pre-check accepts any response with status < 500, so FAILED is
reachable only on a transport error or a status ≥ 500 at the base URL; in
particular a 404 base response still runs the detailed validation, and the
detailed section is present exactly when the pre-check succeeded. -/
theorem C6_failed_iff_base_unreachable_or_5xx (baseUrl : String) (base : HttpAttempt × Nat)
    (specs : List EndpointSpec) (attempts : Nat → HttpAttempt × Nat) :
    ((validateBackendService base.1 base.2).success = true ↔
      ∃ s, base.1 = .response s ∧ s < 500) ∧
    ((comprehensiveHostValidation baseUrl base specs attempts).1.overallStatus = .FAILED ↔
      ((∃ c, base.1 = .transportError c) ∨ ∃ s, base.1 = .response s ∧ 500 ≤ s)) ∧
    ((comprehensiveHostValidation baseUrl base specs attempts).1.detailedValidation).isSome =
      (validateBackendService base.1 base.2).success ∧
    (comprehensiveHostValidation baseUrl (HttpAttempt.response 404, base.2) specs
        attempts).1.detailedValidation =
      some (validateMultipleEndpoints baseUrl specs attempts).1 := by
  obtain ⟨a, rt⟩ := base
  refine ⟨?_, ?_, ?_, ?_⟩
  · cases a with
    | response s => by_cases h : s < 500 <;> simp [validateBackendService, h]
    | transportError c => simp [validateBackendService]
  · cases a with
    | response s =>
        by_cases h : s < 500
        · simp [comprehensiveHostValidation, validateBackendService, h,
            classifyRate_ne_FAILED]
        · simp [comprehensiveHostValidation, validateBackendService, h,
            classifyRate_ne_FAILED]
          omega
    | transportError c => simp [comprehensiveHostValidation, validateBackendService]
  · cases a with
    | response s =>
        by_cases h : s < 500 <;>
          simp [comprehensiveHostValidation, validateBackendService, h]
    | transportError c => simp [comprehensiveHostValidation, validateBackendService]
  · simp [comprehensiveHostValidation, validateBackendService]

/-- C7: in every aggregate report, successful + failed = total, and total is
the number of endpoints in the supplied list, in both aggregators. -/
theorem C7_counts (baseUrl : String) (specs : List EndpointSpec)
    (attempts : Nat → HttpAttempt × Nat) (codes : List Nat) :
    ((validateMultipleEndpoints baseUrl specs attempts).1.summary.successful +
        (validateMultipleEndpoints baseUrl specs attempts).1.summary.failed =
        (validateMultipleEndpoints baseUrl specs attempts).1.summary.total ∧
      (validateMultipleEndpoints baseUrl specs attempts).1.summary.total = specs.length) ∧
    (∃ r, (run_comprehensive_validation true codes).1 = some r ∧
      r.successCount + r.failedCount = r.totalCount ∧ r.totalCount = codes.length) := by
  constructor
  · obtain ⟨ht, hle, hf, -⟩ := multi_summary baseUrl specs attempts
    omega
  · refine ⟨_, rfl, ?_, rfl⟩
    have hle : ((codes.filter shellEndpointSuccess).length) ≤ codes.length :=
      List.length_filter_le _ _
    simp only [run_comprehensive_validation]
    omega

/-- C9: in every probe outcome, exactly one of statusCode and errorKind is
set: the status is present iff some HTTP response was received (including
4xx/5xx), and a transport error kind is present iff no response was received;
likewise the per-endpoint entry's status field is a numeric HTTP code iff a
response was received. -/
theorem C9_exactly_one_of_status_or_error (a : HttpAttempt) (rt : Nat) (spec : EndpointSpec) :
    ((validateBackendService a rt).status.isSome = true ↔ ∃ s, a = .response s) ∧
    ((validateBackendService a rt).errorKind.isSome = true ↔ ∃ c, a = .transportError c) ∧
    ((validateBackendService a rt).status.isSome =
      !(validateBackendService a rt).errorKind.isSome) ∧
    ((∃ n, (probeEndpoint spec a rt).status = .httpCode n) ↔ ∃ s, a = .response s) := by
  refine ⟨?_, ?_, ?_, ?_⟩
  · cases a with
    | response s => by_cases h : s < 500 <;> simp [validateBackendService, h]
    | transportError c => simp [validateBackendService]
  · cases a with
    | response s =>
        by_cases h : s < 500 <;>
          simp [validateBackendService, h, BasicResult.errorKind, BasicErrorMsg.transportKind]
    | transportError c =>
        cases hc : classifyTransport c <;>
          simp [validateBackendService, hc, BasicResult.errorKind, BasicErrorMsg.transportKind]
  · cases a with
    | response s =>
        by_cases h : s < 500 <;>
          simp [validateBackendService, h, BasicResult.errorKind, BasicErrorMsg.transportKind]
    | transportError c =>
        cases hc : classifyTransport c <;>
          simp [validateBackendService, hc, BasicResult.errorKind, BasicErrorMsg.transportKind]
  · cases a with
    | response s => by_cases h : 200 ≤ s ∧ s < 300 <;> simp [probeEndpoint, h]
    | transportError c => cases c <;> simp [probeEndpoint]

end BE
namespace BE

/-- C1: whenever the pre-check succeeds, the produced report's overallStatus
is HEALTHY iff successRate = 100, DEGRADED iff 50 ≤ successRate < 100 and
UNHEALTHY iff successRate < 50, in both aggregators. -/
theorem C1_overall_status_bands (baseUrl : String) (base : HttpAttempt × Nat)
    (specs : List EndpointSpec) (attempts : Nat → HttpAttempt × Nat) (codes : List Nat)
    (hb : (validateBackendService base.1 base.2).success = true) :
    (∃ d, (comprehensiveHostValidation baseUrl base specs attempts).1.detailedValidation = some d ∧
      ((comprehensiveHostValidation baseUrl base specs attempts).1.overallStatus = .HEALTHY ↔
        d.summary.successRate = 100) ∧
      ((comprehensiveHostValidation baseUrl base specs attempts).1.overallStatus = .DEGRADED ↔
        50 ≤ d.summary.successRate ∧ d.summary.successRate < 100) ∧
      ((comprehensiveHostValidation baseUrl base specs attempts).1.overallStatus = .UNHEALTHY ↔
        d.summary.successRate < 50)) ∧
    (∃ r, (run_comprehensive_validation true codes).1 = some r ∧
      (r.overallStatus = .HEALTHY ↔ r.successRate = 100) ∧
      (r.overallStatus = .DEGRADED ↔ 50 ≤ r.successRate ∧ r.successRate < 100) ∧
      (r.overallStatus = .UNHEALTHY ↔ r.successRate < 50)) := by
  constructor
  · have h100 := multi_successRate_le_100 baseUrl specs attempts
    have hst : (comprehensiveHostValidation baseUrl base specs attempts).1.overallStatus =
        classifyRate (validateMultipleEndpoints baseUrl specs attempts).1.summary.successRate := by
      simp [comprehensiveHostValidation, hb]
    refine ⟨(validateMultipleEndpoints baseUrl specs attempts).1, ?_, ?_, ?_, ?_⟩
    · simp [comprehensiveHostValidation, hb]
    · rw [hst]
      exact classifyRate_eq_HEALTHY _
    · rw [hst]
      exact classifyRate_eq_DEGRADED _ h100
    · rw [hst]
      exact classifyRate_eq_UNHEALTHY _
  · have hle : ((codes.filter shellEndpointSuccess).length) ≤ codes.length :=
      List.length_filter_le _ _
    have h100 : shellSuccessRate ((codes.filter shellEndpointSuccess).length) codes.length ≤ 100 :=
      shellSuccessRate_le_100 _ _ hle
    exact ⟨_, rfl, classifyRate_eq_HEALTHY _, classifyRate_eq_DEGRADED _ h100,
      classifyRate_eq_UNHEALTHY _⟩

/-- C8: an individual endpoint failure is recorded as data, never raised: for
every probe oracle, including one where every attempt is a transport error,
the loop is total and the detailed report covers every endpoint of the list. -/
theorem C8_failures_are_data (baseUrl : String) (base : HttpAttempt × Nat)
    (specs : List EndpointSpec) (attempts : Nat → HttpAttempt × Nat)
    (hb : (validateBackendService base.1 base.2).success = true) :
    ∃ d, (comprehensiveHostValidation baseUrl base specs attempts).1.detailedValidation = some d ∧
      d.endpoints.length = specs.length := by
  refine ⟨(validateMultipleEndpoints baseUrl specs attempts).1, ?_, ?_⟩
  · simp [comprehensiveHostValidation, hb]
  · exact probeLoop_fst_length baseUrl specs attempts 0

theorem C8_witness :
    (validateBackendService (HttpAttempt.response 200) 0).success = true ∧
    ∃ d, (comprehensiveHostValidation "http://localhost:5000" (HttpAttempt.response 200, 0)
        defaultEndpoints
        (fun _ => (HttpAttempt.transportError (some "ETIMEDOUT"), 2))).1.detailedValidation =
        some d ∧
      d.endpoints.length = defaultEndpoints.length :=
  ⟨rfl, C8_failures_are_data "http://localhost:5000" (HttpAttempt.response 200, 0)
    defaultEndpoints (fun _ => (HttpAttempt.transportError (some "ETIMEDOUT"), 2)) rfl⟩

/-- C10: when the detailed validation runs, each endpoint of the supplied list
is probed exactly once, at URL baseUrl + path, in list order (the request
trace is exactly the list of those URLs), and the report holds exactly one
entry per spec, in the same order. -/
theorem C10_probe_once_in_order (baseUrl : String) (base : HttpAttempt × Nat)
    (specs : List EndpointSpec) (attempts : Nat → HttpAttempt × Nat)
    (hb : (validateBackendService base.1 base.2).success = true) :
    (comprehensiveHostValidation baseUrl base specs attempts).2 =
      specs.map (fun sp => baseUrl ++ sp.path) ∧
    ∃ d, (comprehensiveHostValidation baseUrl base specs attempts).1.detailedValidation = some d ∧
      d.endpoints.map (fun e => (e.path, e.name)) =
        specs.map (fun sp => (sp.path, sp.name)) := by
  constructor
  · have htr : (comprehensiveHostValidation baseUrl base specs attempts).2 =
        (probeLoop baseUrl specs attempts 0).2 := by
      simp [comprehensiveHostValidation, hb, validateMultipleEndpoints]
    rw [htr, probeLoop_trace]
  · refine ⟨(validateMultipleEndpoints baseUrl specs attempts).1, ?_, ?_⟩
    · simp [comprehensiveHostValidation, hb]
    · exact probeLoop_path_name baseUrl specs attempts 0

theorem C10_witness :
    (validateBackendService (HttpAttempt.response 200) 0).success = true ∧
    ((comprehensiveHostValidation "http://localhost:5000" (HttpAttempt.response 200, 0)
        defaultEndpoints (fun _ => (HttpAttempt.response 404, 1))).2 =
      defaultEndpoints.map (fun sp => "http://localhost:5000" ++ sp.path) ∧
    ∃ d, (comprehensiveHostValidation "http://localhost:5000" (HttpAttempt.response 200, 0)
        defaultEndpoints (fun _ => (HttpAttempt.response 404, 1))).1.detailedValidation =
        some d ∧
      d.endpoints.map (fun e => (e.path, e.name)) =
        defaultEndpoints.map (fun sp => (sp.path, sp.name))) :=
  ⟨rfl, C10_probe_once_in_order "http://localhost:5000" (HttpAttempt.response 200, 0)
    defaultEndpoints (fun _ => (HttpAttempt.response 404, 1)) rfl⟩

end BE
namespace BE

theorem C1_witness :
    (validateBackendService (HttpAttempt.response 200) 0).success = true ∧
    ((∃ d, (comprehensiveHostValidation "http://localhost:5000" (HttpAttempt.response 200, 0)
        defaultEndpoints (fun _ => (HttpAttempt.response 200, 1))).1.detailedValidation = some d ∧
      ((comprehensiveHostValidation "http://localhost:5000" (HttpAttempt.response 200, 0)
        defaultEndpoints (fun _ => (HttpAttempt.response 200, 1))).1.overallStatus = .HEALTHY ↔
        d.summary.successRate = 100) ∧
      ((comprehensiveHostValidation "http://localhost:5000" (HttpAttempt.response 200, 0)
        defaultEndpoints (fun _ => (HttpAttempt.response 200, 1))).1.overallStatus = .DEGRADED ↔
        50 ≤ d.summary.successRate ∧ d.summary.successRate < 100) ∧
      ((comprehensiveHostValidation "http://localhost:5000" (HttpAttempt.response 200, 0)
        defaultEndpoints (fun _ => (HttpAttempt.response 200, 1))).1.overallStatus = .UNHEALTHY ↔
        d.summary.successRate < 50)) ∧
    (∃ r, (run_comprehensive_validation true [200, 200, 200, 404, 404, 404]).1 = some r ∧
      (r.overallStatus = .HEALTHY ↔ r.successRate = 100) ∧
      (r.overallStatus = .DEGRADED ↔ 50 ≤ r.successRate ∧ r.successRate < 100) ∧
      (r.overallStatus = .UNHEALTHY ↔ r.successRate < 50))) :=
  ⟨rfl, C1_overall_status_bands "http://localhost:5000" (HttpAttempt.response 200, 0)
    defaultEndpoints (fun _ => (HttpAttempt.response 200, 1)) [200, 200, 200, 404, 404, 404] rfl⟩

/-- C2 counterexample: with the shell aggregator's six endpoints and exactly
one successful probe, the reported success rate is the truncated 16, not the
round-half-up 17 the claim requires. -/
theorem C2_counterexample :
    Option.map ShellReport.successRate
        (run_comprehensive_validation true [200, 404, 404, 404, 404, 404]).1 = some 16 ∧
    round ((1 * 100 : ℚ) / 6) = 17 ∧
    ¬ (Option.map (fun r => (ShellReport.successRate r : ℤ))
          (run_comprehensive_validation true [200, 404, 404, 404, 404, 404]).1 =
        some (round ((1 * 100 : ℚ) / 6))) := by
  have h17 : round ((1 * 100 : ℚ) / 6) = 17 := by norm_num [round_eq]
  refine ⟨rfl, h17, ?_⟩
  rw [h17]
  intro h
  have h16 : Option.map (fun r => (ShellReport.successRate r : ℤ))
      (run_comprehensive_validation true [200, 404, 404, 404, 404, 404]).1 = some 16 := rfl
  rw [h16] at h
  simp at h

/-- C2 (amended): the JS aggregator's successRate is the round-half-up of
successful/total*100 (Math.round, in exact arithmetic), while the shell
aggregator's success_rate is the floor of successful*100/total (bash integer
division truncates). -/
theorem C2_success_rate_rounding (baseUrl : String) (specs : List EndpointSpec)
    (attempts : Nat → HttpAttempt × Nat) (codes : List Nat) (hspecs : specs ≠ []) :
    (((validateMultipleEndpoints baseUrl specs attempts).1.summary.successRate : ℤ) =
      round (((validateMultipleEndpoints baseUrl specs attempts).1.summary.successful * 100 : ℚ) /
        (validateMultipleEndpoints baseUrl specs attempts).1.summary.total)) ∧
    (∃ r, (run_comprehensive_validation true codes).1 = some r ∧
      (r.successRate : ℤ) = ⌊((r.successCount * 100 : ℕ) : ℚ) / r.totalCount⌋) := by
  constructor
  · obtain ⟨ht, -, -, hrate⟩ := multi_summary baseUrl specs attempts
    rw [hrate, ht]
    have hpos : 0 < specs.length := List.length_pos.mpr hspecs
    have := jsRound100_eq_round
      (validateMultipleEndpoints baseUrl specs attempts).1.summary.successful specs.length hpos
    convert this using 3
  · exact ⟨_, rfl, shellSuccessRate_eq_floor _ _⟩

theorem C2_witness :
    defaultEndpoints ≠ [] ∧
    ((((validateMultipleEndpoints "http://localhost:5000" defaultEndpoints
          (fun _ => (HttpAttempt.response 200, 1))).1.summary.successRate : ℤ) =
      round (((validateMultipleEndpoints "http://localhost:5000" defaultEndpoints
          (fun _ => (HttpAttempt.response 200, 1))).1.summary.successful * 100 : ℚ) /
        (validateMultipleEndpoints "http://localhost:5000" defaultEndpoints
          (fun _ => (HttpAttempt.response 200, 1))).1.summary.total)) ∧
    (∃ r, (run_comprehensive_validation true [200, 404, 404, 404, 404, 404]).1 = some r ∧
      (r.successRate : ℤ) = ⌊((r.successCount * 100 : ℕ) : ℚ) / r.totalCount⌋)) :=
  ⟨by simp [defaultEndpoints],
   C2_success_rate_rounding "http://localhost:5000" defaultEndpoints
     (fun _ => (HttpAttempt.response 200, 1)) [200, 404, 404, 404, 404, 404]
     (by simp [defaultEndpoints])⟩

/-- C4: the process exit code is a pure function of overallStatus: 0 iff
HEALTHY, and 1 exactly when the status is DEGRADED, UNHEALTHY or FAILED; the
shell run likewise exits 0 iff its completed report is HEALTHY, and exits 1
when the pre-check fails. -/
theorem C4_exit_code_pure_in_status (baseUrl : String) (base : HttpAttempt × Nat)
    (specs : List EndpointSpec) (attempts : Nat → HttpAttempt × Nat)
    (basicOk : Bool) (codes : List Nat) :
    ((hostingValidation baseUrl base specs attempts).2.1 = 0 ↔
      (hostingValidation baseUrl base specs attempts).1.overallStatus = .HEALTHY) ∧
    ((hostingValidation baseUrl base specs attempts).2.1 = 1 ↔
      ((hostingValidation baseUrl base specs attempts).1.overallStatus = .DEGRADED ∨
       (hostingValidation baseUrl base specs attempts).1.overallStatus = .UNHEALTHY ∨
       (hostingValidation baseUrl base specs attempts).1.overallStatus = .FAILED)) ∧
    ((run_comprehensive_validation basicOk codes).2 = 0 ↔
      Option.map ShellReport.overallStatus (run_comprehensive_validation basicOk codes).1 =
        some OverallStatus.HEALTHY) ∧
    (run_comprehensive_validation false codes).2 = 1 := by
  refine ⟨?_, ?_, ?_, rfl⟩
  · by_cases h : (comprehensiveHostValidation baseUrl base specs attempts).1.overallStatus =
        .HEALTHY <;>
      simp [hostingValidation, h]
  · cases hst : (comprehensiveHostValidation baseUrl base specs attempts).1.overallStatus <;>
      simp [hostingValidation, hst]
  · cases basicOk with
    | false => simp [run_comprehensive_validation]
    | true =>
        by_cases hr : shellSuccessRate ((codes.filter shellEndpointSuccess).length)
            codes.length = 100
        · simp [run_comprehensive_validation, shellSuccessRate] at hr ⊢
          simp [hr]
        · simp [run_comprehensive_validation, shellSuccessRate] at hr ⊢
          simp [hr]
          split_ifs <;> simp

end BE
